import Mathlib

/-!
Verification of the caproto server-side channel data model
(`src/caproto/_data.py`): the alarm state machine (`ChannelAlarm`), the
numeric limit check (`ChannelNumeric.verify_value`), the enum value hook
(`ChannelEnum.verify_value`), the write pipeline (`ChannelData.write`),
the subscription fan-out with its conversion cache (`ChannelData.publish`),
and the snapshot/filter engine (`pre_state_change` / `post_state_change` /
`_fill_at_next_write`).

Numeric channel values are modelled as `Int` scalars or `Int` lists; the
only operations the embedded code performs on values are order comparisons
and copies, so this is faithful for the integer channel classes and for the
float classes on the inputs the claims quantify over.
-/

set_option maxHeartbeats 1000000

namespace Caproto


/-- EPICS alarm severity (`AlarmSeverity` in `_dbr`): NO_ALARM=0, MINOR=1,
MAJOR=2, INVALID=3. -/

inductive AlarmSeverity
  | NO_ALARM
  | MINOR_ALARM
  | MAJOR_ALARM
  | INVALID_ALARM
deriving DecidableEq, Repr

/-- The integer value of an `AlarmSeverity` member; Python compares the
IntEnum members and raw ints with this value. -/

def AlarmSeverity.toInt : AlarmSeverity → Int
  | .NO_ALARM => 0
  | .MINOR_ALARM => 1
  | .MAJOR_ALARM => 2
  | .INVALID_ALARM => 3

/-- EPICS alarm status (`AlarmStatus` in `_dbr`), restricted to the members
`_data.py` uses. -/

inductive AlarmStatus
  | NO_ALARM
  | READ_ALARM
  | WRITE_ALARM
  | HIHI
  | HIGH
  | LOLO
  | LOW
deriving DecidableEq, Repr

/-- The `SubscriptionType` bitmask (DBE_VALUE | DBE_LOG | DBE_ALARM |
DBE_PROPERTY), modelled as one flag field per bit. -/

structure SubFlags where
  dbe_value : Bool := false
  dbe_log : Bool := false
  dbe_alarm : Bool := false
  dbe_property : Bool := false
deriving DecidableEq, Repr

/-- The mutable state of `ChannelAlarm` (`self._data` plus
`string_encoding`, which no claim touches).  `severity_to_acknowledge` is
kept as a raw `Int`: the source stores the user-supplied integer without
converting it to `AlarmSeverity`. -/

structure ChannelAlarm where
  status : AlarmStatus := .NO_ALARM
  severity : AlarmSeverity := .NO_ALARM
  must_acknowledge_transient : Bool := true
  severity_to_acknowledge : Int := 0
  alarm_string : String := ""
deriving DecidableEq, Repr

/-- The keyword arguments of `ChannelAlarm.write`; `none` means the keyword
was not passed (Python default `None`). -/

structure AlarmWriteArgs where
  status? : Option AlarmStatus := none
  severity? : Option AlarmSeverity := none
  must_acknowledge_transient? : Option Bool := none
  severity_to_acknowledge? : Option Int := none
  alarm_string? : Option String := none
deriving DecidableEq, Repr

/-- Model of `ChannelAlarm.write`, `status` branch: replace status, set DBE_VALUE. -/

def alarmStepStatus (st? : Option AlarmStatus) (af : ChannelAlarm × SubFlags) :
    ChannelAlarm × SubFlags :=
  match st? with
  | some st => ({af.1 with status := st}, {af.2 with dbe_value := true})
  | none => af

/-- Model of `ChannelAlarm.write`, `severity` branch: replace severity; if
`not must_acknowledge_transient or severity_to_acknowledge < severity`
(the new severity) then `severity_to_acknowledge := severity`; set
DBE_ALARM. -/

def alarmStepSeverity (sv? : Option AlarmSeverity) (af : ChannelAlarm × SubFlags) :
    ChannelAlarm × SubFlags :=
  match sv? with
  | some sv =>
    let a := {af.1 with severity := sv}
    let a := if !a.must_acknowledge_transient || a.severity_to_acknowledge < sv.toInt
             then {a with severity_to_acknowledge := sv.toInt} else a
    (a, {af.2 with dbe_alarm := true})
  | none => af

/-- Model of `ChannelAlarm.write`, `must_acknowledge_transient` branch: replace the
flag; if transitioning it to false while `severity_to_acknowledge >
severity`, reset `severity_to_acknowledge := severity`; set DBE_ALARM. -/

def alarmStepAckTransient (m? : Option Bool) (af : ChannelAlarm × SubFlags) :
    ChannelAlarm × SubFlags :=
  match m? with
  | some m =>
    let a := {af.1 with must_acknowledge_transient := m}
    let a := if !m && a.severity.toInt < a.severity_to_acknowledge
             then {a with severity_to_acknowledge := a.severity.toInt} else a
    (a, {af.2 with dbe_alarm := true})
  | none => af

/-- Model of `ChannelAlarm.write`, `severity_to_acknowledge` branch: if the request
is `>=` the current severity, clear `severity_to_acknowledge := 0` and set
DBE_ALARM; otherwise the branch does nothing. -/

def alarmStepAck (k? : Option Int) (af : ChannelAlarm × SubFlags) :
    ChannelAlarm × SubFlags :=
  match k? with
  | some k =>
    if af.1.severity.toInt ≤ k then
      ({af.1 with severity_to_acknowledge := 0}, {af.2 with dbe_alarm := true})
    else af
  | none => af

/-- Model of `ChannelAlarm.write`, `alarm_string` branch: replace; set DBE_ALARM. -/

def alarmStepString (s? : Option String) (af : ChannelAlarm × SubFlags) :
    ChannelAlarm × SubFlags :=
  match s? with
  | some s => ({af.1 with alarm_string := s}, {af.2 with dbe_alarm := true})
  | none => af

/-- Model of `ChannelAlarm.write(status=..., severity=..., ...)`: the five keyword
branches applied in source order, on the alarm data and the accumulated
subscription flags.  The final `publish` call is modelled separately by the
callers (`alarmWriteFrom`), which know the set of attached channels. -/

def ChannelAlarm.write (a : ChannelAlarm) (args : AlarmWriteArgs) (flags : SubFlags) :
    ChannelAlarm × SubFlags :=
  alarmStepString args.alarm_string?
    (alarmStepAck args.severity_to_acknowledge?
      (alarmStepAckTransient args.must_acknowledge_transient?
        (alarmStepSeverity args.severity?
          (alarmStepStatus args.status? (a, flags)))))

/-- An alarm write that only passes `severity_to_acknowledge`. -/

def ackOnlyArgs (k : Int) : AlarmWriteArgs := {severity_to_acknowledge? := some k}

/-- The alarm state used to refute claim C6: `must_acknowledge_transient`
is false, `severity_to_acknowledge` is 0. -/

def alarmC6 : ChannelAlarm := { must_acknowledge_transient := false }

/-! Enum channels: `ChannelEnum.verify_value` (claim C8). -/

/-- A value passed to `ChannelEnum.verify_value`: either a Python int or a
string (the two kinds the enum write path produces). -/

inductive EnumDatum
  | intD (i : Int)
  | strD (s : String)
deriving DecidableEq, Repr

/-- Python sequence indexing `xs[i]` for `i : Int`: a negative index counts
from the end; out-of-range raises IndexError (here `none`). -/

def pySeqGet (xs : List String) (i : Int) : Option String :=
  let j := if i < 0 then i + xs.length else i
  if 0 ≤ j ∧ j < xs.length then xs[j.toNat]? else none

/-- Model of `ChannelEnum.verify_value`: `return self.enum_strings[data]`, with
IndexError and TypeError caught and the original `data` returned. -/

def ChannelEnum.verify_value (enum_strings : List String) (data : EnumDatum) :
    EnumDatum :=
  match data with
  | .intD i =>
    match pySeqGet enum_strings i with
    | some s => .strD s
    | none => data
  | .strD _ => data

/-- Claim C8, amended rule, stated from the amended claim's words: an
integer index in `[0, len)` selects `enum_strings[i]`; an integer in
`[-len, 0)` selects `enum_strings[len + i]`; every other input is returned
unchanged. -/

def enumVerifyAmended (enum_strings : List String) (data : EnumDatum) : EnumDatum :=
  match data with
  | .intD i =>
    if 0 ≤ i ∧ i < enum_strings.length then
      ((enum_strings[i.toNat]?).map .strD).getD data
    else if -(enum_strings.length : Int) ≤ i ∧ i < 0 then
      ((enum_strings[(i + enum_strings.length).toNat]?).map .strD).getD data
    else data
  | .strD _ => data

/-! Alarm attachment registry: `ChannelAlarm.connect` / `disconnect`
(claim C9).  The registry `self._channels` is a `weakref.WeakSet`; it is
modelled as a duplicate-free list of channel identifiers. -/

/-- Python exceptions surfaced by the registry operations. -/

inductive PyError
  | keyError
deriving DecidableEq, Repr

/-- Model of `ChannelAlarm.connect`: `self._channels.add(channel_data)` — set
insertion, a no-op when the channel is already present. -/

def ChannelAlarm.connect (channels : List Nat) (c : Nat) : List Nat :=
  if c ∈ channels then channels else channels ++ [c]

/-- Model of `ChannelAlarm.disconnect`: `self._channels.remove(channel_data)` —
`WeakSet.remove` raises `KeyError` when the element is absent. -/

def ChannelAlarm.disconnect (channels : List Nat) (c : Nat) :
    Except PyError (List Nat) :=
  if c ∈ channels then .ok (channels.erase c) else .error .keyError

/-! Channel value store and the numeric write pipeline. -/

/-- A native channel value: a scalar or a 1-D array. -/

inductive CValue
  | scalar (x : Int)
  | arr (xs : List Int)
deriving DecidableEq, Repr

/-- The errors the embedded write pipeline can raise. -/

inductive WriteError
  | cannotExceedLimits
  | outOfBounds
  | emptyScalar
  | caprotoValueError
  | valueError
  | attributeError
deriving DecidableEq, Repr

/-- Model of `ChannelData.preprocess_value`: reject arrays longer than `max_length`;
for a scalar channel unwrap a length-1 array and reject an empty one; for an
array channel wrap a scalar into a list. -/

def preprocessValue (maxLen : Nat) (v : CValue) : Except WriteError CValue :=
  match v with
  | .arr xs =>
    if maxLen < xs.length then .error .outOfBounds
    else if maxLen = 1 then
      match xs with
      | x :: _ => .ok (.scalar x)
      | [] => .error .emptyScalar
    else .ok (.arr xs)
  | .scalar x =>
    if maxLen = 1 then .ok (.scalar x) else .ok (.arr [x])

/-- The state of a `ChannelNumeric` instance: `self._data` (value plus the
numeric metadata installed by `ChannelNumeric.__init__`) together with the
staged alarm attributes `self._status` / `self._severity`. -/

structure NumericChannel where
  value : CValue
  max_length : Nat := 1
  units : String := ""
  upper_disp_limit : Int := 0
  lower_disp_limit : Int := 0
  upper_alarm_limit : Int := 0
  upper_warning_limit : Int := 0
  lower_warning_limit : Int := 0
  lower_alarm_limit : Int := 0
  upper_ctrl_limit : Int := 0
  lower_ctrl_limit : Int := 0
  timestamp : Nat := 0
  staged_status : Option AlarmStatus := none
  staged_severity : Option AlarmSeverity := none
deriving DecidableEq, Repr

/-- The scalar `val` that `ChannelNumeric.verify_value` extracts:
a non-iterable value, or the single element of a length-1 array; `none`
when the data is an array of length ≠ 1 (limits do not apply). -/

def extractScalar : CValue → Option Int
  | .scalar x => some x
  | .arr [x] => some x
  | .arr _ => none

/-- The inner `limit_checker` of `ChannelNumeric.verify_value`, with the
default severities (`field_inst` is absent on plain `ChannelNumeric`, so
`limit_getter` always returns the default severity): if the two limits
differ, `value <= lo` gives the low status and `hi <= value` gives the high
status; otherwise no alarm. -/

def limitChecker (lo hi : Int) (loStatus hiStatus : AlarmStatus)
    (loSeverity hiSeverity : AlarmSeverity) (value : Int) :
    AlarmStatus × AlarmSeverity :=
  if lo ≠ hi then
    if value ≤ lo then (loStatus, loSeverity)
    else if hi ≤ value then (hiStatus, hiSeverity)
    else (.NO_ALARM, .NO_ALARM)
  else (.NO_ALARM, .NO_ALARM)

/-- Model of `ChannelNumeric.verify_value`: extract the scalar (arrays of length ≠ 1
return unchanged with no staging), raise `CannotExceedLimits` when the
control limits differ and the value falls outside them, then stage the
`(status, severity)` of the HIHI/LOLO check, falling through to the
HIGH/LOW check only when the first stage found `NO_ALARM`.  Returns the
channel with the staged fields set, and the (unmodified) data. -/

def ChannelNumeric.verify_value (ch : NumericChannel) (data : CValue) :
    Except WriteError (NumericChannel × CValue) :=
  match extractScalar data with
  | none => .ok (ch, data)
  | some val =>
    if ch.lower_ctrl_limit ≠ ch.upper_ctrl_limit ∧
       ¬(ch.lower_ctrl_limit ≤ val ∧ val ≤ ch.upper_ctrl_limit) then
      .error .cannotExceedLimits
    else
      let p1 := limitChecker ch.lower_alarm_limit ch.upper_alarm_limit
        .LOLO .HIHI .MAJOR_ALARM .MAJOR_ALARM val
      let p := if p1.1 = .NO_ALARM then
                 limitChecker ch.lower_warning_limit ch.upper_warning_limit
                   .LOW .HIGH .MINOR_ALARM .MINOR_ALARM val
               else p1
      .ok ({ch with staged_status := some p.1, staged_severity := some p.2}, data)

/-- The alarm-related metadata dict assembled by `_collect_alarm`. -/

structure AlarmMd where
  status? : Option AlarmStatus := none
  severity? : Option AlarmSeverity := none
deriving DecidableEq, Repr

/-- Model of `ChannelData._collect_alarm`: collect the staged status when it is set
and differs from the alarm's status; collect the staged severity when it is
set and — as the source is written — `self._status != self.alarm.status`
(the STATUS comparison, where `self._status` may also be `None`); then
clear both staged fields. -/

def ChannelData.collect_alarm (ch : NumericChannel) (alarm : ChannelAlarm) :
    AlarmMd × NumericChannel :=
  let outStatus : Option AlarmStatus :=
    match ch.staged_status with
    | some st => if st ≠ alarm.status then some st else none
    | none => none
  let outSeverity : Option AlarmSeverity :=
    match ch.staged_severity with
    | some sv => if ch.staged_status ≠ some alarm.status then some sv else none
    | none => none
  (⟨outStatus, outSeverity⟩,
   {ch with staged_status := none, staged_severity := none})

/-- The staging rule exactly as claim C2 states it: alarm limits first
(inclusive comparisons, guarded by the limits being distinct), warning
limits only when the alarm stage yields NO_ALARM, otherwise
`(NO_ALARM, NO_ALARM)`. -/

def claimStagedPair (ch : NumericChannel) (v : Int) : AlarmStatus × AlarmSeverity :=
  if ch.lower_alarm_limit ≠ ch.upper_alarm_limit ∧ v ≤ ch.lower_alarm_limit then
    (.LOLO, .MAJOR_ALARM)
  else if ch.lower_alarm_limit ≠ ch.upper_alarm_limit ∧ ch.upper_alarm_limit ≤ v then
    (.HIHI, .MAJOR_ALARM)
  else if ch.lower_warning_limit ≠ ch.upper_warning_limit ∧ v ≤ ch.lower_warning_limit then
    (.LOW, .MINOR_ALARM)
  else if ch.lower_warning_limit ≠ ch.upper_warning_limit ∧ ch.upper_warning_limit ≤ v then
    (.HIGH, .MINOR_ALARM)
  else (.NO_ALARM, .NO_ALARM)

/-- The channel staged state used to exhibit claim C7's divergence: staged
status equals the alarm status, staged severity differs from the alarm
severity. -/

def chanC7 : NumericChannel :=
  { value := .scalar 0, staged_status := some .NO_ALARM,
    staged_severity := some .MINOR_ALARM }

/-! Subscription fan-out: `ChannelData.publish` and its conversion cache
(claims C3, C4, C1). -/

/-- The wire data types used by the modelled subscriptions
(`ChannelType` members in `_dbr`). -/

inductive ChannelType
  | TIME_DOUBLE
  | DOUBLE
  | TIME_FLOAT
  | FLOAT
deriving DecidableEq, Repr

/-- A subscription's `data_type_name`: the *string* key under which
`SubscriptionSpec` carries its requested type.  `_channel_type_by_name`
maps each name to its `ChannelType`; the model restricts the table to the
names used here, keeping names and types distinct kinds exactly as the
source does. -/

inductive DtName
  | TIME_DOUBLE
  | DOUBLE
  | TIME_FLOAT
  | FLOAT
deriving DecidableEq, Repr

/-- Lookup table `_channel_type_by_name[data_type_name]`. -/

def DtName.toType : DtName → ChannelType
  | .TIME_DOUBLE => .TIME_DOUBLE
  | .DOUBLE => .DOUBLE
  | .TIME_FLOAT => .TIME_FLOAT
  | .FLOAT => .FLOAT

/-- A key of the `self._content` cache dict.  `subscribe` and the lookup in
`publish` key on the `data_type_name` string, while the store in `publish`
keys on the `ChannelType` member (`channel_data._content[data_type] = ...`);
a Python dict keeps those as distinct keys. -/

inductive CacheKey
  | byName (n : DtName)
  | byType (t : ChannelType)
deriving DecidableEq, Repr

/-- Modelled from the spec: the `(metadata, values)` pair produced by
`ChannelData._read`.  `_read` itself is in `_data.py`, but the conversion it
delegates to (`backend.convert_values` in `_backend`/`_dbr`) is not under
`src/`; following the spec's conversion contract and round-trip law, the
converted reading is modelled as the source channel's native value tagged
with the requested wire type. -/

structure Content where
  dtype : ChannelType
  value : CValue
deriving DecidableEq, Repr

/-- Model of `ChannelData._read` at the granularity the fan-out claims need. -/

def ChannelData.readContent (src : NumericChannel) (dt : ChannelType) : Content :=
  ⟨dt, src.value⟩

/-- The `self._content` cache: a Python dict from cache keys to readings. -/

abbrev Cache := List (CacheKey × Content)

/-- Python dict assignment `d[k] = v`: replace an existing key in place,
else append. -/

def assocInsert {α β : Type} [DecidableEq α] (l : List (α × β)) (k : α) (v : β) :
    List (α × β) :=
  if (l.lookup k).isSome then
    l.map (fun kv => if kv.1 = k then (k, v) else kv)
  else l ++ [(k, v)]

/-- A `SubscriptionSpec` at the granularity the claims need: an identity,
the requested `data_type_name`, and the channel filter's sync tag
`(state_var, mode)`. -/

structure SubSpec where
  sid : Nat
  data_type_name : DtName
  sync : Option (String × String)
deriving DecidableEq, Repr

/-- One innermost group of `self._queues`: the set of specs a queue holds
for one `(sync, data_type_name)` pair. -/

structure QueueGroup where
  sync : Option (String × String)
  data_type_name : DtName
  specs : List SubSpec
deriving DecidableEq, Repr

/-- One queue's registrations (`self._queues[queue]`), in iteration
order. -/

structure QueueReg where
  qid : Nat
  groups : List QueueGroup
deriving DecidableEq, Repr

/-- A snapshot held in `self._snapshots[state][mode]`: either a live
reference to the channel itself (stored by `post_state_change` for
`while`/`unless`) or a deep copy with its own data and content cache. -/

inductive Snap
  | live
  | frozen (chan : NumericChannel) (cache : Cache)
deriving DecidableEq, Repr

/-- The state of one `ChannelData` instance together with its attached
alarm: channel data, subscription registry, conversion cache, snapshot map
and the `_fill_at_next_write` queue.  The alarm's weak channel set contains
exactly this channel. -/

structure SysState where
  chan : NumericChannel
  alarm : ChannelAlarm := {}
  queues : List QueueReg := []
  content : Cache := []
  snapshots : List ((String × String) × Snap) := []
  fill_at_next_write : List (String × String) := []
deriving DecidableEq, Repr

/-- A `SubscriptionUpdate` put on a queue by `publish` (the `sub` handle is
`None` there). -/

structure Enq where
  qid : Nat
  sub_specs : List SubSpec
  reading : Content
  flags : SubFlags
deriving DecidableEq, Repr

/-- The identity of the `channel_data` object a conversion ran on: the live
channel (`self`, also the target of `while`/`unless` live references) or a
frozen snapshot. -/

inductive SrcRef
  | selfRef
  | frozenRef (sm : String × String)
deriving DecidableEq, Repr

/-- Model of `ChannelData._is_eligible`: the spec's sync is `None`, or the sync mode
is a key of `self._snapshots[sync.s]`. -/

def ChannelData.is_eligible (snaps : List ((String × String) × Snap))
    (ss : SubSpec) : Bool :=
  match ss.sync with
  | none => true
  | some sm => (snaps.lookup sm).isSome

/-- The accumulator threaded through one `publish` call: the evolving
state, the updates enqueued so far, and a log entry for every `_read`
conversion performed. -/

structure PubAcc where
  sys : SysState
  enq : List Enq
  conversions : List (SrcRef × ChannelType)
deriving DecidableEq, Repr

/-- The body of `publish` for one `(queue, sync, data_type_name)` group:
filter the eligible specs; resolve the source channel (`self`, or the
snapshot, or skip); look the reading up in `self._content` under the
`data_type_name` key, else convert via `_read` and store it in the source's
`_content` under the `ChannelType` key; enqueue one update for the eligible
specs. -/

def publishGroupStep (flags : SubFlags) (qid : Nat) (acc : PubAcc)
    (g : QueueGroup) : PubAcc :=
  let eligible := g.specs.filter (ChannelData.is_eligible acc.sys.snapshots)
  if eligible.isEmpty then acc
  else
    let src? : Option (SrcRef × NumericChannel) :=
      match g.sync with
      | none => some (.selfRef, acc.sys.chan)
      | some sm =>
        match acc.sys.snapshots.lookup sm with
        | some .live => some (.selfRef, acc.sys.chan)
        | some (.frozen c _) => some (.frozenRef sm, c)
        | none => none
    match src? with
    | none => acc
    | some (tag, srcChan) =>
      match acc.sys.content.lookup (CacheKey.byName g.data_type_name) with
      | some c =>
        {acc with enq := acc.enq ++ [⟨qid, eligible, c, flags⟩]}
      | none =>
        let dt := g.data_type_name.toType
        let c := ChannelData.readContent srcChan dt
        let sys :=
          match tag with
          | .selfRef =>
            {acc.sys with content := assocInsert acc.sys.content (.byType dt) c}
          | .frozenRef sm =>
            {acc.sys with snapshots :=
              (match acc.sys.snapshots.lookup sm with
               | some (.frozen ch ca) =>
                 assocInsert acc.sys.snapshots sm
                   (.frozen ch (assocInsert ca (.byType dt) c))
               | _ => acc.sys.snapshots)}
        ⟨sys, acc.enq ++ [⟨qid, eligible, c, flags⟩],
         acc.conversions ++ [(tag, dt)]⟩

/-- Model of `ChannelData.publish(flags)`: clear `self._content`, then walk every
queue, every sync tag and every `data_type_name` group, performing
`publishGroupStep` for each. -/

def ChannelData.publish (sys : SysState) (flags : SubFlags) : PubAcc :=
  let sys0 := {sys with content := []}
  sys0.queues.foldl
    (fun acc q => q.groups.foldl (publishGroupStep flags q.qid) acc)
    ⟨sys0, [], []⟩

/-- Model of `ChannelAlarm.write(...)` followed (when `publish` is true) by
`ChannelAlarm.publish(flags)`, which calls `channel.publish(flags)` on the
one attached channel. -/

def alarmWriteFrom (sys : SysState) (args : AlarmWriteArgs) (doPublish : Bool) :
    SysState × List Enq × List (SrcRef × ChannelType) :=
  let af := sys.alarm.write args {}
  let sys1 := {sys with alarm := af.1}
  if doPublish then
    let acc := ChannelData.publish sys1 af.2
    (acc.sys, acc.enq, acc.conversions)
  else (sys1, [], [])

/-- Model of `ChannelData.write_metadata(publish=False, timestamp=..., **alarm_md)`
as invoked from `write`: set the timestamp; when a status or a severity was
collected, forward them to `alarm.write(..., publish=False)`. -/

def ChannelData.write_metadata_np (sys : SysState) (md : AlarmMd) (now : Nat) :
    SysState :=
  let sys1 := {sys with chan := {sys.chan with timestamp := now}}
  if md.status?.isSome || md.severity?.isSome then
    {sys1 with alarm :=
      (sys1.alarm.write {status? := md.status?, severity? := md.severity?} {}).1}
  else sys1

/-- The result of one call of `ChannelData.write`: the final state, the
updates enqueued on subscriber queues, the conversion log, and the raised
error if any. -/

structure WriteResult where
  sys : SysState
  enq : List Enq
  conversions : List (SrcRef × ChannelType)
  err : Option WriteError
deriving DecidableEq, Repr

/-- The `except Exception` / `finally` path of `ChannelData.write`: write
`(status=WRITE, severity=MAJOR)` to the alarm (whose default
`publish=True` fans the alarm update out through `channel.publish`), then
run `_collect_alarm` (the `finally` clause), discard its result and
re-raise. -/

def writeErrorPath (sys : SysState) (e : WriteError) : WriteResult :=
  let r := alarmWriteFrom sys
    {status? := some .WRITE_ALARM, severity? := some .MAJOR_ALARM} true
  let chan := (ChannelData.collect_alarm r.1.chan r.1.alarm).2
  ⟨{r.1 with chan := chan}, r.2.1, r.2.2, some e⟩

/-- Model of `ChannelData.write(value, flags=flags)` for a numeric channel, with the
default `verify_value=True`, `update_fields=True` and no caller metadata;
`now` stands for the `time.time()` default timestamp.  Steps, in source
order: preprocess; `verify_value` (stages status/severity); the base
`update_fields` no-op; on an exception, the alarm WRITE/MAJOR path; the
`finally` collection of staged alarm data; materialise the
`_fill_at_next_write` snapshots from a deep copy of the channel taken
*before* the value commit; commit the value; `write_metadata` without
publishing; `publish(flags)`.  The final `alarm.publish(flags,
except_for=(self,))` touches no channel because the only attached channel
is excluded. -/

def ChannelData.write (sys : SysState) (v : CValue) (flags : SubFlags)
    (now : Nat) : WriteResult :=
  match preprocessValue sys.chan.max_length v with
  | .error e => writeErrorPath sys e
  | .ok val =>
    match ChannelNumeric.verify_value sys.chan val with
    | .error e => writeErrorPath sys e
    | .ok chmod =>
      let cm := ChannelData.collect_alarm chmod.1 sys.alarm
      let sys1 := {sys with chan := cm.2}
      let sys2 :=
        if sys1.fill_at_next_write.isEmpty then sys1
        else
          let snap := Snap.frozen sys1.chan sys1.content
          {sys1 with
            snapshots := sys1.fill_at_next_write.foldl
              (fun s km => assocInsert s km snap) sys1.snapshots,
            fill_at_next_write := []}
      let sys3 := {sys2 with chan := {sys2.chan with value := chmod.2}}
      let sys4 := ChannelData.write_metadata_np sys3 cm.1 now
      let acc := ChannelData.publish sys4 flags
      ⟨acc.sys, acc.enq, acc.conversions, none⟩

/-- Model of `ChannelData.pre_state_change(state, new_value)`: clear
`self._snapshots[state]`, deep-copy the channel, and file the copy under
`before` (entering the state) or `last` (leaving it). -/

def ChannelData.pre_state_change (sys : SysState) (state : String)
    (new_value : Bool) : SysState :=
  let cleared := sys.snapshots.filter (fun kv => kv.1.1 ≠ state)
  let snap := Snap.frozen sys.chan sys.content
  if new_value then
    {sys with snapshots := assocInsert cleared (state, "before") snap}
  else
    {sys with snapshots := assocInsert cleared (state, "last") snap}

/-- Model of `ChannelData.post_state_change(state, new_value)`: on false→true store
a live reference under `while` and queue `(state, after)` in
`_fill_at_next_write`; on true→false store a live reference under `unless`
and queue `(state, first)`. -/

def ChannelData.post_state_change (sys : SysState) (state : String)
    (new_value : Bool) : SysState :=
  if new_value then
    {sys with
      snapshots := assocInsert sys.snapshots (state, "while") .live,
      fill_at_next_write := sys.fill_at_next_write ++ [(state, "after")]}
  else
    {sys with
      snapshots := assocInsert sys.snapshots (state, "unless") .live,
      fill_at_next_write := sys.fill_at_next_write ++ [(state, "first")]}

/-- Two queues, each with one subscriber requesting wire type TIME_DOUBLE
on the live channel (no sync filter). -/

def sysC3 : SysState :=
  { chan := {value := .scalar 4},
    queues := [⟨0, [⟨none, .TIME_DOUBLE, [⟨1, .TIME_DOUBLE, none⟩]⟩]⟩,
               ⟨1, [⟨none, .TIME_DOUBLE, [⟨2, .TIME_DOUBLE, none⟩]⟩]⟩] }

/-- The subscriber filtered on `sync=(S, after)` used for claim C4. -/

def specAfter : SubSpec := ⟨3, .TIME_DOUBLE, some ("S", "after")⟩

/-- A channel holding value 1 with a single `sync=(S, after)` subscriber,
before the state transition. -/

def sysC4base : SysState :=
  { chan := {value := .scalar 1},
    queues := [⟨0, [⟨some ("S", "after"), .TIME_DOUBLE, [specAfter]⟩]⟩] }

/-- State `sysC4base` after the server's false→true transition on state `S`:
`post_state_change` stored the `while` live reference and queued
`(S, after)` in `_fill_at_next_write`. -/

def sysC4 : SysState := ChannelData.post_state_change sysC4base ("S") true

/-- The value a stored snapshot holds (`none` for a live reference). -/

def snapValue : Snap → Option CValue
  | .live => none
  | .frozen c _ => some c.value

/-- The alarm write issued by the write pipeline's exception handler. -/

def writeMajorArgs : AlarmWriteArgs :=
  {status? := some .WRITE_ALARM, severity? := some .MAJOR_ALARM}

/-- A scalar double channel with control limits `[0, 10]` and one plain
subscriber, used to refute claim C1. -/

def sysC1 : SysState :=
  { chan := {value := .scalar 1, lower_ctrl_limit := 0, upper_ctrl_limit := 10},
    queues := [⟨0, [⟨none, .DOUBLE, [⟨0, .DOUBLE, none⟩]⟩]⟩] }

/-! `ChannelByte` construction (claim C10). -/

/-- The value stored by a `ChannelByte` after preprocessing: a byte string,
or (on the `max_length > 1` length-1-list path with
`strip_null_terminator=False`) a raw integer. -/

inductive ByteVal
  | bytesV (bs : List Nat)
  | intV (x : Int)
deriving DecidableEq, Repr

/-- Python `bytes([x])`: a one-byte string, `ValueError` outside
`[0, 256)`. -/

def byteOfInt (x : Int) : Except WriteError (List Nat) :=
  if 0 ≤ x ∧ x < 256 then .ok [x.toNat] else .error .valueError

/-- Python `b''.join(map(bytes, ([v] for v in value)))`. -/

def bytesJoin (xs : List Int) : Except WriteError (List Nat) :=
  match xs with
  | [] => .ok []
  | x :: rest => do
    let b ← byteOfInt x
    let r ← bytesJoin rest
    .ok (b ++ r)

/-- Python `value.rstrip(b'\x00')`. -/

def stripNulls (bs : List Nat) : List Nat :=
  (bs.reverse.dropWhile (· = 0)).reverse

/-- Model of `ChannelByte.preprocess_value`: the base `preprocess_value`, then the
byte coercions.  A length-1 list on a `max_length > 1` channel collapses to
its bare integer element; with `strip_null_terminator` set, the final
`value.tobytes()` on that integer raises `AttributeError`, otherwise the
integer is kept as-is.  A scalar (only possible when `max_length == 1`)
goes through `bytes([value])`; longer lists are joined bytewise; the null
terminator is stripped when requested. -/

def ChannelByte.preprocess_value (maxLen : Nat) (strip : Bool) (v : CValue) :
    Except WriteError ByteVal := do
  let base ← preprocessValue maxLen v
  match base with
  | .arr [] => pure (.bytesV [])
  | .arr [x] =>
    if strip then .error .attributeError else pure (.intV x)
  | .arr xs => do
    let bs ← bytesJoin xs
    pure (.bytesV (if strip then stripNulls bs else bs))
  | .scalar x => do
    let bs ← byteOfInt x
    pure (.bytesV (if strip then stripNulls bs else bs))

/-- Model of `calculate_length` for a byte channel value. -/

def calcLength : CValue → Nat
  | .scalar _ => 1
  | .arr xs => xs.length

/-- The state a successful `ChannelByte.__init__` produces (the fields the
claim quantifies over). -/

structure ChannelByteState where
  string_encoding : Option String
  strip_null_terminator : Bool
  max_length : Nat
  value : ByteVal
deriving DecidableEq, Repr

/-- Model of `ChannelByte.__init__(string_encoding=..., strip_null_terminator=...,
value=..., max_length=...)`: raise `CaprotoValueError` when a string
encoding is supplied — before any state is built — and otherwise run the
base construction with `string_encoding=None`: default the maximum length
from the initial value and preprocess the value. -/

def ChannelByte.init (string_encoding : Option String)
    (strip_null_terminator : Bool) (value : CValue) (max_length : Option Nat) :
    Except WriteError ChannelByteState :=
  if string_encoding.isSome then .error .caprotoValueError
  else do
    let maxLen := max_length.getD (max (calcLength value) 1)
    let bv ← ChannelByte.preprocess_value maxLen strip_null_terminator value
    pure ⟨none, strip_null_terminator, maxLen, bv⟩

/-! Theorems. -/

theorem sevToInt_nonneg (s : AlarmSeverity) : 0 ≤ s.toInt := by
  cases s <;> decide

/-- Claim C5: `alarm.write(severity_to_acknowledge=k)` clears
`severity_to_acknowledge` to 0 and sets DBE_ALARM exactly when `k` is at
least the current severity; otherwise the whole alarm state and the flags
are returned unchanged. -/
theorem alarm_write_ack_request (a : ChannelAlarm) (k : Int) (f : SubFlags) :
    a.write (ackOnlyArgs k) f =
      if a.severity.toInt ≤ k then
        ({a with severity_to_acknowledge := 0}, {f with dbe_alarm := true})
      else (a, f) := by
  simp only [ChannelAlarm.write, ackOnlyArgs, alarmStepStatus, alarmStepSeverity,
    alarmStepAckTransient, alarmStepAck, alarmStepString]

/-- Claim C6, counterexample: with `must_acknowledge_transient = false` and
`severity_to_acknowledge = 0`, `alarm.write(severity=MAJOR)` raises
`severity_to_acknowledge` to 2 — it does not "only decrease" as the claim
states. -/
theorem alarm_ack_can_increase_when_not_transient :
    alarmC6.must_acknowledge_transient = false ∧
    alarmC6.severity_to_acknowledge = 0 ∧
    (alarmC6.write {severity? := some .MAJOR_ALARM} {}).1.severity_to_acknowledge = 2 ∧
    ¬((2 : Int) ≤ 0) := by
  refine ⟨rfl, rfl, rfl, by decide⟩

theorem alarmStepStatus_sta (st? : Option AlarmStatus) (af : ChannelAlarm × SubFlags) :
    (alarmStepStatus st? af).1.severity_to_acknowledge = af.1.severity_to_acknowledge := by
  cases st? <;> rfl

theorem alarmStepString_sta (s? : Option String) (af : ChannelAlarm × SubFlags) :
    (alarmStepString s? af).1.severity_to_acknowledge = af.1.severity_to_acknowledge := by
  cases s? <;> rfl

theorem alarmStepSeverity_sta_nonneg (sv? : Option AlarmSeverity)
    (af : ChannelAlarm × SubFlags) (h : 0 ≤ af.1.severity_to_acknowledge) :
    0 ≤ (alarmStepSeverity sv? af).1.severity_to_acknowledge := by
  cases sv? with
  | none => exact h
  | some sv =>
    simp only [alarmStepSeverity]
    split
    · exact sevToInt_nonneg sv
    · exact h

theorem alarmStepAckTransient_sta_nonneg (m? : Option Bool)
    (af : ChannelAlarm × SubFlags) (h : 0 ≤ af.1.severity_to_acknowledge) :
    0 ≤ (alarmStepAckTransient m? af).1.severity_to_acknowledge := by
  cases m? with
  | none => exact h
  | some m =>
    simp only [alarmStepAckTransient]
    split
    · exact sevToInt_nonneg _
    · exact h

theorem alarmStepAck_sta_nonneg (k? : Option Int)
    (af : ChannelAlarm × SubFlags) (h : 0 ≤ af.1.severity_to_acknowledge) :
    0 ≤ (alarmStepAck k? af).1.severity_to_acknowledge := by
  cases k? with
  | none => exact h
  | some k =>
    simp only [alarmStepAck]
    split
    · exact le_refl 0
    · exact h

/-- Claim C6, amended: (a) any `alarm.write` preserves
`severity_to_acknowledge ≥ 0` provided it holds beforehand (every
assignment writes a severity value or 0); (b) for a write that passes a
`severity` and passes neither `must_acknowledge_transient` nor
`severity_to_acknowledge`, the result is `max(prior, severity)` when
`must_acknowledge_transient` is true and exactly the new `severity` when it
is false (which can increase the field). -/
theorem alarm_ack_invariants (a : ChannelAlarm) (args : AlarmWriteArgs)
    (f : SubFlags) (st? : Option AlarmStatus) (s : AlarmSeverity) (as? : Option String)
    (h : 0 ≤ a.severity_to_acknowledge) :
    0 ≤ (a.write args f).1.severity_to_acknowledge ∧
    (a.write {status? := st?, severity? := some s, alarm_string? := as?}
        f).1.severity_to_acknowledge =
      (if a.must_acknowledge_transient then max a.severity_to_acknowledge s.toInt
       else s.toInt) := by
  constructor
  · unfold ChannelAlarm.write
    rw [alarmStepString_sta]
    apply alarmStepAck_sta_nonneg
    apply alarmStepAckTransient_sta_nonneg
    apply alarmStepSeverity_sta_nonneg
    rw [alarmStepStatus_sta]
    exact h
  · unfold ChannelAlarm.write
    rw [alarmStepString_sta]
    by_cases h1 : a.severity_to_acknowledge < s.toInt <;>
    cases hm : a.must_acknowledge_transient <;>
    cases st? <;>
      simp [alarmStepAck, alarmStepAckTransient, alarmStepStatus, alarmStepSeverity,
        hm, h1] <;>
      omega

/-- Claim C6, witness for the amended theorem at a concrete alarm. -/
theorem alarm_ack_invariants_witness :
    0 ≤ (({severity_to_acknowledge := 1} : ChannelAlarm).write
          {severity? := some .MAJOR_ALARM} {}).1.severity_to_acknowledge ∧
    (({severity_to_acknowledge := 1} : ChannelAlarm).write
        {status? := none, severity? := some .MAJOR_ALARM, alarm_string? := none}
        {}).1.severity_to_acknowledge =
      (if ({severity_to_acknowledge := 1} : ChannelAlarm).must_acknowledge_transient
       then max ({severity_to_acknowledge := 1} : ChannelAlarm).severity_to_acknowledge
              AlarmSeverity.MAJOR_ALARM.toInt
       else AlarmSeverity.MAJOR_ALARM.toInt) :=
  alarm_ack_invariants {severity_to_acknowledge := 1}
    {severity? := some .MAJOR_ALARM} {} none .MAJOR_ALARM none (by decide)

/-- Claim C8, counterexample: for the table `["off", "on"]` the out-of-range
integer `-1` is not returned unchanged — Python indexing maps it to the last
entry `"on"`. -/
theorem enum_verify_negative_index_not_passthrough :
    ChannelEnum.verify_value ["off", "on"] (.intD (-1)) = .strD ("on") ∧
    EnumDatum.strD ("on") ≠ EnumDatum.intD (-1) ∧
    ¬(0 ≤ (-1 : Int)) := by
  refine ⟨rfl, by decide, by decide⟩

theorem optionMapGetD (o : Option String) (d : EnumDatum) :
    (o.map EnumDatum.strD).getD d = (match o with | some s => .strD s | none => d) := by
  cases o <;> rfl

theorem pySeqGet_cases (xs : List String) (i : Int) :
    pySeqGet xs i =
      (if 0 ≤ i ∧ i < xs.length then xs[i.toNat]?
       else if -(xs.length : Int) ≤ i ∧ i < 0 then xs[(i + xs.length).toNat]?
       else none) := by
  unfold pySeqGet
  by_cases hneg : i < 0
  · simp only [hneg, if_true]
    by_cases hin : -(xs.length : Int) ≤ i
    · have h1 : 0 ≤ i + (xs.length : Int) ∧ i + (xs.length : Int) < xs.length := by omega
      have h2 : ¬(0 ≤ i ∧ i < (xs.length : Int)) := by omega
      simp [h1, h2, hin, hneg]
    · have h1 : ¬(0 ≤ i + (xs.length : Int) ∧ i + (xs.length : Int) < xs.length) := by
        omega
      have h2 : ¬(0 ≤ i ∧ i < (xs.length : Int)) := by omega
      simp [h1, h2, hin]
      omega
  · simp only [hneg, if_false]
    by_cases hin : i < (xs.length : Int)
    · have h1 : 0 ≤ i ∧ i < (xs.length : Int) := by omega
      simp [h1]
    · have h1 : ¬(0 ≤ i ∧ i < (xs.length : Int)) := by omega
      have h2 : ¬(-(xs.length : Int) ≤ i ∧ i < 0) := by omega
      simp [h1, h2]

/-- Claim C8, amended: `ChannelEnum.verify_value` returns `enum_strings[i]`
for integers in `[0, len)`, returns `enum_strings[len + i]` for integers in
`[-len, 0)` (Python negative indexing), and returns every other input
unchanged. -/
theorem enum_verify_value_amended (enum_strings : List String) (data : EnumDatum) :
    ChannelEnum.verify_value enum_strings data = enumVerifyAmended enum_strings data := by
  cases data with
  | strD s => rfl
  | intD i =>
    show (match pySeqGet enum_strings i with
          | some s => EnumDatum.strD s
          | none => EnumDatum.intD i) = _
    rw [pySeqGet_cases]
    simp only [enumVerifyAmended]
    by_cases h1 : 0 ≤ i ∧ i < (enum_strings.length : Int)
    · rw [if_pos h1, if_pos h1]
      cases hx : enum_strings[i.toNat]? <;> simp [hx]
    · rw [if_neg h1, if_neg h1]
      by_cases h2 : -(enum_strings.length : Int) ≤ i ∧ i < 0
      · rw [if_pos h2, if_pos h2]
        cases hx : enum_strings[(i + (enum_strings.length : Int)).toNat]? <;> simp [hx]
      · rw [if_neg h2, if_neg h2]

theorem erase_append_singleton (s : List Nat) (c : Nat) (h : c ∉ s) :
    (s ++ [c]).erase c = s := by
  induction s with
  | nil => simp
  | cons a t ih =>
    simp only [List.mem_cons, not_or] at h
    simp [List.erase_cons, Ne.symm h.1, ih h.2]

/-- Claim C9, counterexample: disconnecting a channel that is not in the
set raises `KeyError`; it is not a no-op on an unchanged set. -/
theorem alarm_disconnect_absent_raises :
    ChannelAlarm.disconnect ([] : List Nat) 7 = .error .keyError ∧
    (7 : Nat) ∉ ([] : List Nat) := by
  refine ⟨rfl, by decide⟩

/-- Claim C9, amended: insertion into the attachment set is idempotent
(connecting twice equals connecting once), but removal is not a no-op on an
absent channel: disconnecting a channel not in the set raises `KeyError`,
while disconnecting right after connecting returns the original set. -/
theorem alarm_attach_detach_behavior (s : List Nat) (c : Nat) (h : c ∉ s) :
    ChannelAlarm.connect (ChannelAlarm.connect s c) c = ChannelAlarm.connect s c ∧
    ChannelAlarm.disconnect s c = .error .keyError ∧
    ChannelAlarm.disconnect (ChannelAlarm.connect s c) c = .ok s := by
  have hc : ChannelAlarm.connect s c = s ++ [c] := by
    simp [ChannelAlarm.connect, h]
  have herase : (s ++ [c]).erase c = s := erase_append_singleton s c h
  refine ⟨?_, ?_, ?_⟩
  · rw [hc]
    simp [ChannelAlarm.connect]
  · simp [ChannelAlarm.disconnect, h]
  · rw [hc]
    simp [ChannelAlarm.disconnect, herase]

/-- Claim C9, witness for the amended theorem at the empty set. -/
theorem alarm_attach_detach_behavior_witness :
    ChannelAlarm.connect (ChannelAlarm.connect [] 7) 7 = ChannelAlarm.connect [] 7 ∧
    ChannelAlarm.disconnect ([] : List Nat) 7 = .error .keyError ∧
    ChannelAlarm.disconnect (ChannelAlarm.connect [] 7) 7 = .ok [] :=
  alarm_attach_detach_behavior [] 7 (by decide)

theorem stagedPair_eq_claim (ch : NumericChannel) (v : Int) :
    (let p1 := limitChecker ch.lower_alarm_limit ch.upper_alarm_limit
        .LOLO .HIHI .MAJOR_ALARM .MAJOR_ALARM v
     if p1.1 = .NO_ALARM then
       limitChecker ch.lower_warning_limit ch.upper_warning_limit
         .LOW .HIGH .MINOR_ALARM .MINOR_ALARM v
     else p1) = claimStagedPair ch v := by
  simp only [limitChecker, claimStagedPair]
  split_ifs <;> first | rfl | simp_all

/-- Claim C2: for a scalar that passes the control-limit check,
`ChannelNumeric.verify_value` succeeds, returns the data unchanged, and
stages exactly the `(status, severity)` pair of the claim's multi-stage
rule; an array of length ≥ 2 bypasses every limit check and stages
nothing. -/
theorem numeric_verify_value_staging (ch : NumericChannel) (v : Int)
    (xs : List Int)
    (hctrl : ch.lower_ctrl_limit = ch.upper_ctrl_limit ∨
             (ch.lower_ctrl_limit ≤ v ∧ v ≤ ch.upper_ctrl_limit))
    (hxs : 2 ≤ xs.length) :
    ChannelNumeric.verify_value ch (.scalar v) =
      .ok ({ch with staged_status := some (claimStagedPair ch v).1,
                    staged_severity := some (claimStagedPair ch v).2}, .scalar v) ∧
    ChannelNumeric.verify_value ch (.arr xs) = .ok (ch, .arr xs) := by
  constructor
  · have hc : ¬(ch.lower_ctrl_limit ≠ ch.upper_ctrl_limit ∧
        ¬(ch.lower_ctrl_limit ≤ v ∧ v ≤ ch.upper_ctrl_limit)) := by
      rcases hctrl with h | h
      · simp [h]
      · simp [h]
    simp only [ChannelNumeric.verify_value, extractScalar, hc, if_false,
      stagedPair_eq_claim]
  · match xs, hxs with
    | x :: y :: rest, _ => rfl

/-- Claim C2, witness: a channel with distinct alarm limits and a value
exactly at the upper alarm limit stages `(HIHI, MAJOR)`. -/
theorem numeric_verify_value_staging_witness :
    ChannelNumeric.verify_value
        {value := .scalar 0, lower_alarm_limit := -10, upper_alarm_limit := 10,
         lower_warning_limit := -5, upper_warning_limit := 5} (.scalar 10) =
      .ok ({value := .scalar 0, lower_alarm_limit := -10, upper_alarm_limit := 10,
            lower_warning_limit := -5, upper_warning_limit := 5,
            staged_status := some (claimStagedPair
              {value := .scalar 0, lower_alarm_limit := -10, upper_alarm_limit := 10,
               lower_warning_limit := -5, upper_warning_limit := 5} 10).1,
            staged_severity := some (claimStagedPair
              {value := .scalar 0, lower_alarm_limit := -10, upper_alarm_limit := 10,
               lower_warning_limit := -5, upper_warning_limit := 5} 10).2},
           .scalar 10) ∧
    ChannelNumeric.verify_value
        {value := .scalar 0, lower_alarm_limit := -10, upper_alarm_limit := 10,
         lower_warning_limit := -5, upper_warning_limit := 5} (.arr [1, 2]) =
      .ok ({value := .scalar 0, lower_alarm_limit := -10, upper_alarm_limit := 10,
            lower_warning_limit := -5, upper_warning_limit := 5}, .arr [1, 2]) :=
  numeric_verify_value_staging
    {value := .scalar 0, lower_alarm_limit := -10, upper_alarm_limit := 10,
     lower_warning_limit := -5, upper_warning_limit := 5} 10 [1, 2]
    (Or.inl rfl) (by decide)

/-- Claim C7, failing-input evaluation: with staged status `NO_ALARM` equal
to the alarm's status and staged severity `MINOR` different from the
alarm's severity `NO_ALARM`, `_collect_alarm` collects nothing — the
severity branch is gated by the status comparison, so the differing staged
severity is dropped (the claim says it must be collected). -/
theorem collect_alarm_severity_gated_by_status :
    (ChannelData.collect_alarm chanC7 {}).1 = ⟨none, none⟩ ∧
    chanC7.staged_severity = some .MINOR_ALARM ∧
    ({} : ChannelAlarm).severity = .NO_ALARM ∧
    AlarmSeverity.MINOR_ALARM ≠ AlarmSeverity.NO_ALARM := by
  refine ⟨rfl, rfl, rfl, by decide⟩

/-- Claim C3, failing-input evaluation: one `publish` call on `sysC3`
performs the TIME_DOUBLE conversion on the live channel twice — once per
queue — because the reading is stored in the cache under the `ChannelType`
key but looked up under the `data_type_name` key, so the second group never
hits the cache.  The claim's "at most once per (source, wire type)" bound
fails. -/
theorem publish_conversion_runs_twice :
    (ChannelData.publish sysC3 {}).conversions =
      [(.selfRef, .TIME_DOUBLE), (.selfRef, .TIME_DOUBLE)] ∧
    ¬((ChannelData.publish sysC3 {}).conversions.count
        (.selfRef, .TIME_DOUBLE) ≤ 1) ∧
    (ChannelData.publish sysC3 {}).sys.content =
      [(CacheKey.byType .TIME_DOUBLE, ⟨.TIME_DOUBLE, .scalar 4⟩)] := by
  refine ⟨rfl, by decide, rfl⟩

/-- Claim C4, failing-input evaluation: with `(S, after)` queued, the next
`write(2)` commits value 2 to the channel, but the snapshot materialised
under `snapshots[S][after]` is the deep copy taken *before* the commit and
holds the pre-write value 1, and the `sync=(S, after)` subscriber is sent a
reading of 1 — not the newly written 2 the claim requires. -/
theorem fill_at_next_write_uses_pre_write_snapshot :
    sysC4.fill_at_next_write = [("S", "after")] ∧
    (ChannelData.write sysC4 (.scalar 2) {} 7).sys.chan.value = .scalar 2 ∧
    ((ChannelData.write sysC4 (.scalar 2) {} 7).sys.snapshots.lookup
        ("S", "after")).map snapValue = some (some (.scalar 1)) ∧
    (ChannelData.write sysC4 (.scalar 2) {} 7).enq =
      [⟨0, [specAfter], ⟨.TIME_DOUBLE, .scalar 1⟩, {}⟩] ∧
    (CValue.scalar 1 : CValue) ≠ .scalar 2 := by
  refine ⟨by decide, by decide, by decide, by decide, by decide⟩

theorem publishGroupStep_preserves (flags : SubFlags) (qid : Nat) (acc : PubAcc)
    (g : QueueGroup) :
    (publishGroupStep flags qid acc g).sys.chan = acc.sys.chan ∧
    (publishGroupStep flags qid acc g).sys.alarm = acc.sys.alarm ∧
    (publishGroupStep flags qid acc g).sys.fill_at_next_write =
      acc.sys.fill_at_next_write ∧
    (publishGroupStep flags qid acc g).sys.queues = acc.sys.queues := by
  simp only [publishGroupStep]
  repeat' split
  all_goals exact ⟨rfl, rfl, rfl, rfl⟩

theorem foldGroups_preserves (flags : SubFlags) (qid : Nat)
    (gs : List QueueGroup) (acc : PubAcc) :
    (gs.foldl (publishGroupStep flags qid) acc).sys.chan = acc.sys.chan ∧
    (gs.foldl (publishGroupStep flags qid) acc).sys.alarm = acc.sys.alarm ∧
    (gs.foldl (publishGroupStep flags qid) acc).sys.fill_at_next_write =
      acc.sys.fill_at_next_write ∧
    (gs.foldl (publishGroupStep flags qid) acc).sys.queues = acc.sys.queues := by
  induction gs generalizing acc with
  | nil => exact ⟨rfl, rfl, rfl, rfl⟩
  | cons g gs ih =>
    simp only [List.foldl_cons]
    obtain ⟨h1, h2, h3, h4⟩ := publishGroupStep_preserves flags qid acc g
    obtain ⟨k1, k2, k3, k4⟩ := ih (publishGroupStep flags qid acc g)
    exact ⟨k1.trans h1, k2.trans h2, k3.trans h3, k4.trans h4⟩

theorem foldQueues_preserves (flags : SubFlags) (qs : List QueueReg)
    (acc : PubAcc) :
    ((qs.foldl (fun a q => q.groups.foldl (publishGroupStep flags q.qid) a)
        acc).sys.chan = acc.sys.chan) ∧
    ((qs.foldl (fun a q => q.groups.foldl (publishGroupStep flags q.qid) a)
        acc).sys.alarm = acc.sys.alarm) ∧
    ((qs.foldl (fun a q => q.groups.foldl (publishGroupStep flags q.qid) a)
        acc).sys.fill_at_next_write = acc.sys.fill_at_next_write) ∧
    ((qs.foldl (fun a q => q.groups.foldl (publishGroupStep flags q.qid) a)
        acc).sys.queues = acc.sys.queues) := by
  induction qs generalizing acc with
  | nil => exact ⟨rfl, rfl, rfl, rfl⟩
  | cons q qs ih =>
    simp only [List.foldl_cons]
    obtain ⟨h1, h2, h3, h4⟩ := foldGroups_preserves flags q.qid q.groups acc
    obtain ⟨k1, k2, k3, k4⟩ :=
      ih (q.groups.foldl (publishGroupStep flags q.qid) acc)
    exact ⟨k1.trans h1, k2.trans h2, k3.trans h3, k4.trans h4⟩

/-- Lemma: `publish` never touches the channel data, the alarm, the fill queue or
the subscription registry; it only rewrites the content caches and emits
updates. -/
theorem publish_preserves (sys : SysState) (flags : SubFlags) :
    (ChannelData.publish sys flags).sys.chan = sys.chan ∧
    (ChannelData.publish sys flags).sys.alarm = sys.alarm ∧
    (ChannelData.publish sys flags).sys.fill_at_next_write =
      sys.fill_at_next_write ∧
    (ChannelData.publish sys flags).sys.queues = sys.queues := by
  unfold ChannelData.publish
  exact foldQueues_preserves flags sys.queues ⟨{sys with content := []}, [], []⟩

/-- Claim C1, counterexample: on `sysC1` (whose `lower_ctrl_limit = 0 <
10 = upper_ctrl_limit`), `write(11)` raises `CannotExceedLimits` and leaves
the stored value unchanged — but the attached alarm is *not* unchanged (its
status becomes WRITE and its severity MAJOR) and a subscription update *is*
enqueued by the alarm's publish. -/
theorem write_limit_violation_not_side_effect_free :
    (ChannelData.write sysC1 (.scalar 11) {} 5).err = some .cannotExceedLimits ∧
    (ChannelData.write sysC1 (.scalar 11) {} 5).sys.chan.value = .scalar 1 ∧
    sysC1.alarm.status = .NO_ALARM ∧
    (ChannelData.write sysC1 (.scalar 11) {} 5).sys.alarm.status = .WRITE_ALARM ∧
    (ChannelData.write sysC1 (.scalar 11) {} 5).sys.alarm.severity = .MAJOR_ALARM ∧
    (ChannelData.write sysC1 (.scalar 11) {} 5).sys.alarm ≠ sysC1.alarm ∧
    (ChannelData.write sysC1 (.scalar 11) {} 5).enq ≠ [] := by
  refine ⟨rfl, rfl, rfl, rfl, rfl, by decide, by decide⟩

/-- Claim C1, amended: for every numeric channel with
`lower_ctrl_limit ≠ upper_ctrl_limit` and every scalar `v` outside the
control limits, `write(v)` raises `CannotExceedLimits`; the stored value
and every metadata field are unchanged and no staged status/severity
remains; however the attached alarm is rewritten exactly as by
`alarm.write(status=WRITE, severity=MAJOR)` — updating its status, severity
and (per the alarm rules) `severity_to_acknowledge` — and the updates
enqueued are exactly those of the alarm-triggered `publish` on the updated
state. -/
theorem write_limit_violation_behavior (sys : SysState) (v : Int)
    (flags : SubFlags) (now : Nat)
    (hne : sys.chan.lower_ctrl_limit ≠ sys.chan.upper_ctrl_limit)
    (hout : ¬(sys.chan.lower_ctrl_limit ≤ v ∧ v ≤ sys.chan.upper_ctrl_limit)) :
    (ChannelData.write sys (.scalar v) flags now).err =
      some .cannotExceedLimits ∧
    (ChannelData.write sys (.scalar v) flags now).sys.chan =
      {sys.chan with staged_status := none, staged_severity := none} ∧
    (ChannelData.write sys (.scalar v) flags now).sys.alarm =
      (sys.alarm.write writeMajorArgs {}).1 ∧
    (ChannelData.write sys (.scalar v) flags now).sys.fill_at_next_write =
      sys.fill_at_next_write ∧
    (ChannelData.write sys (.scalar v) flags now).enq =
      (ChannelData.publish {sys with alarm := (sys.alarm.write writeMajorArgs {}).1}
        (sys.alarm.write writeMajorArgs {}).2).enq := by
  have hverify : ∀ w : CValue, extractScalar w = some v →
      ChannelNumeric.verify_value sys.chan w = .error .cannotExceedLimits := by
    intro w hw
    unfold ChannelNumeric.verify_value
    rw [hw]
    simp only [if_pos (And.intro hne hout)]
  have hred : ChannelData.write sys (.scalar v) flags now =
      writeErrorPath sys .cannotExceedLimits := by
    unfold ChannelData.write
    by_cases hml : sys.chan.max_length = 1
    · simp only [preprocessValue, if_pos hml, hverify (.scalar v) rfl]
    · simp only [preprocessValue, if_neg hml, hverify (.arr [v]) rfl]
  rw [hred]
  obtain ⟨hc, ha, hf, _hq⟩ := publish_preserves
    {sys with alarm := (sys.alarm.write writeMajorArgs {}).1}
    (sys.alarm.write writeMajorArgs {}).2
  refine ⟨rfl, ?_, ?_, ?_, rfl⟩
  · show ({(ChannelData.publish
        {sys with alarm := (sys.alarm.write writeMajorArgs {}).1}
        (sys.alarm.write writeMajorArgs {}).2).sys.chan with
        staged_status := none, staged_severity := none} : NumericChannel) =
      {sys.chan with staged_status := none, staged_severity := none}
    rw [hc]
  · show (ChannelData.publish
        {sys with alarm := (sys.alarm.write writeMajorArgs {}).1}
        (sys.alarm.write writeMajorArgs {}).2).sys.alarm =
      (sys.alarm.write writeMajorArgs {}).1
    rw [ha]
  · show (ChannelData.publish
        {sys with alarm := (sys.alarm.write writeMajorArgs {}).1}
        (sys.alarm.write writeMajorArgs {}).2).sys.fill_at_next_write =
      sys.fill_at_next_write
    rw [hf]

/-- Claim C1, witness for the amended theorem on `sysC1` with the
out-of-range value 11. -/
theorem write_limit_violation_behavior_witness :
    (ChannelData.write sysC1 (.scalar 11) {} 6).err =
      some .cannotExceedLimits ∧
    (ChannelData.write sysC1 (.scalar 11) {} 6).sys.chan =
      {sysC1.chan with staged_status := none, staged_severity := none} ∧
    (ChannelData.write sysC1 (.scalar 11) {} 6).sys.alarm =
      (sysC1.alarm.write writeMajorArgs {}).1 ∧
    (ChannelData.write sysC1 (.scalar 11) {} 6).sys.fill_at_next_write =
      sysC1.fill_at_next_write ∧
    (ChannelData.write sysC1 (.scalar 11) {} 6).enq =
      (ChannelData.publish
        {sysC1 with alarm := (sysC1.alarm.write writeMajorArgs {}).1}
        (sysC1.alarm.write writeMajorArgs {}).2).enq :=
  write_limit_violation_behavior sysC1 11 {} 6 (by decide) (by decide)

/-- Claim C10: any `ChannelByte` constructed with a non-`None` string
encoding raises `CaprotoValueError` before any channel state exists, and
consequently every successfully constructed `ChannelByte` carries
`string_encoding = None`. -/
theorem channel_byte_encoding_guard (enc : Option String) (strip : Bool)
    (v : CValue) (ml : Option Nat) (st : ChannelByteState) (e : String)
    (hok : ChannelByte.init enc strip v ml = .ok st) :
    enc = none ∧ st.string_encoding = none ∧
    ChannelByte.init (some e) strip v ml = .error .caprotoValueError := by
  refine ⟨?_, ?_, rfl⟩
  · cases enc with
    | none => rfl
    | some s => simp [ChannelByte.init] at hok
  · cases enc with
    | some s => simp [ChannelByte.init] at hok
    | none =>
      simp only [ChannelByte.init, Option.isSome_none, Bool.false_eq_true,
        if_false] at hok
      rcases hpre : ChannelByte.preprocess_value
          (ml.getD (max (calcLength v) 1)) strip v with he | bv
      · rw [hpre] at hok
        exact absurd hok (by simp [Except.bind])
      · rw [hpre] at hok
        have h2 := Except.ok.inj hok
        rw [← h2]

/-- Claim C10, witness: a successful construction from the byte list
`[104, 105, 0]` with stripping, and the failing construction with encoding
`"utf-8"`. -/
theorem channel_byte_encoding_guard_witness :
    (none : Option String) = none ∧
    (ChannelByteState.mk none true 40 (.bytesV [104, 105])).string_encoding = none ∧
    ChannelByte.init (some ("utf-8")) true (.arr [104, 105, 0]) (some 40) =
      .error .caprotoValueError :=
  channel_byte_encoding_guard none true (.arr [104, 105, 0]) (some 40)
    ⟨none, true, 40, .bytesV [104, 105]⟩ ("utf-8") rfl

end Caproto



